import Mathlib

set_option maxRecDepth 100000

/-!
Verification of the mcp-server-mermaid tool-dispatch and export-pipeline core.

The development shallowly embeds the three source modules that carry the logic:

* `renderer.ts` (`MermaidRenderer`): `exportDiagram` and the four `render*`
  methods, the SVG/HTML string templates and the theme-color table;
* `tools.ts` (`MermaidTools`): the six tool handlers and their stub helpers;
* `index.ts` (`MermaidServer`): the tool catalog returned by the listing
  handler and the call dispatcher with its catch-all error degradation.

Modelling conventions:

* JavaScript `undefined` flowing through the untyped `args: any` objects is
  modelled as `Option.none`; template-literal interpolation of `undefined`
  yields the string `"undefined"` (`jsInterp`), while a property access such
  as `.slice` on `undefined` raises a TypeError (`jsSlice` returns `.error`).
* `fs.writeFileSync` is modelled as always succeeding; the write a call
  performs is returned alongside the `ExportResult` so that theorems can
  speak about file contents.  `mkdirSync(..., { recursive: true })` has no
  observable data effect (errors are swallowed by `ensureDirectoryExists`)
  and is not modelled.
* Node `Buffer.from(s).toString('base64')` is modelled by a UTF-8 encoder
  (`utf8Bytes`, bytes as `Nat`) composed with a base64 encoder
  (`base64Encode`); a decoder `base64Decode` is provided and proved to be a
  left inverse on byte lists.
* JS `string.length` counts UTF-16 code units (`utf16Length`); `Math.round`
  of the KB ratio is `(len + 512) / 1024` in integer arithmetic.
-/

/-! ## JavaScript string helpers -/

/-- Template-literal interpolation of a possibly-`undefined` string value:
`undefined` prints as `"undefined"`. -/
def jsInterp : Option String → String
  | some s => s
  | none => "undefined"

/-- Truthiness of a JS string value: `undefined` and `""` are falsy. -/
def jsTruthyStr : Option String → Bool
  | some s => !(s = "")
  | none => false

/-- JS `s.slice(0, n)` (string assumed within the basic multilingual plane,
as all strings in this code base are, so code units coincide with chars). -/
def jsSliceStr (n : Nat) (s : String) : String := String.mk (s.data.take n)

/-- JS `v.slice(0, n)` on a possibly-`undefined` value: property access on
`undefined` raises a TypeError (message as produced by V8). -/
def jsSlice (n : Nat) : Option String → Except String String
  | some s => .ok (jsSliceStr n s)
  | none => .error "Cannot read properties of undefined (reading \x27slice\x27)"

/-- JS `String.prototype.toUpperCase` (the ASCII fragment suffices here). -/
def jsToUpperCase (s : String) : String := String.mk (s.data.map Char.toUpper)

/-- JS `string.length`: the number of UTF-16 code units. -/
def utf16Length (s : String) : Nat :=
  (s.data.map (fun c => if c.toNat < 65536 then 1 else 2)).sum

/-- Integer form of `Math.round(len / 1024)`: rounding half away from zero
on a nonnegative ratio is `(len + 512) / 1024` in exact arithmetic. -/
def jsRoundKB (len : Nat) : Nat := (len + 512) / 1024

/-- The `` `${Math.round(x.length / 1024)}KB` `` size strings. -/
def kbSize (len : Nat) : String := toString (jsRoundKB len) ++ "KB"

/-- Node `path.resolve(p)` against the working directory `cwd` (paths in this
development are already normalized, so no `..`/`.` collapsing is modelled). -/
def resolvePath (cwd p : String) : String :=
  if p.data.head? = some '/' then p else cwd ++ "/" ++ p

/-! ## Substring containment (JS `String.prototype.includes`) -/

/-- Containment of `pat` as a contiguous run inside the second list. -/
def containsChars (pat : List Char) : List Char → Bool
  | [] => pat.isEmpty
  | c :: rest => pat.isPrefixOf (c :: rest) || containsChars pat rest

/-- JS `s.includes(pat)`. -/
def strContains (s pat : String) : Bool := containsChars pat.data s.data

theorem isPrefixOf_self_append (p b : List Char) : p.isPrefixOf (p ++ b) = true := by
  induction p with
  | nil => simp [List.isPrefixOf]
  | cons c cs ih => simp [List.isPrefixOf, ih]

theorem isPrefixOf_append_right (p a b : List Char) (h : p.isPrefixOf a = true) :
    p.isPrefixOf (a ++ b) = true := by
  induction p generalizing a with
  | nil => simp [List.isPrefixOf]
  | cons c cs ih =>
      cases a with
      | nil => simp [List.isPrefixOf] at h
      | cons x xs =>
          simp only [List.isPrefixOf, Bool.and_eq_true, beq_iff_eq] at h ⊢
          exact ⟨h.1, ih xs h.2⟩

theorem containsChars_append_self (p a b : List Char) :
    containsChars p (a ++ p ++ b) = true := by
  induction a with
  | nil =>
      cases hp : p ++ b with
      | nil => simp_all [containsChars, List.isEmpty]
      | cons x xs =>
          simp only [List.nil_append, hp, containsChars]
          rw [← hp, isPrefixOf_self_append]
          rfl
  | cons x xs ih =>
      simp only [List.cons_append, containsChars, List.append_eq, ih, Bool.or_true]

theorem containsChars_mono_right (p a b : List Char) (h : containsChars p a = true) :
    containsChars p (a ++ b) = true := by
  induction a with
  | nil =>
      simp only [containsChars, List.isEmpty_iff] at h
      subst h
      cases b with
      | nil => rfl
      | cons x xs => simp [containsChars, List.isPrefixOf]
  | cons x xs ih =>
      simp only [containsChars, Bool.or_eq_true] at h ⊢
      rcases h with h | h
      · exact Or.inl (isPrefixOf_append_right _ _ _ h)
      · exact Or.inr (ih h)

theorem strContains_append_middle (a p b : String) : strContains (a ++ p ++ b) p = true := by
  unfold strContains
  rw [String.data_append, String.data_append]
  exact containsChars_append_self p.data a.data b.data

theorem strContains_append_right (a p : String) : strContains (a ++ p) p = true := by
  unfold strContains
  rw [String.data_append]
  have h := containsChars_append_self p.data a.data []
  simpa using h

/-! ## UTF-8 and base64 (Node `Buffer.from(s).toString('base64')`) -/

/-- UTF-8 encoding of a single character; bytes are `Nat` values `< 256`. -/
def utf8EncodeChar (c : Char) : List Nat :=
  if c.toNat < 128 then [c.toNat]
  else if c.toNat < 2048 then [192 + c.toNat / 64, 128 + c.toNat % 64]
  else if c.toNat < 65536 then
    [224 + c.toNat / 4096, 128 + c.toNat / 64 % 64, 128 + c.toNat % 64]
  else
    [240 + c.toNat / 262144, 128 + c.toNat / 4096 % 64, 128 + c.toNat / 64 % 64,
      128 + c.toNat % 64]

/-- The bytes of `Buffer.from(s)` (UTF-8). -/
def utf8Bytes (s : String) : List Nat := s.data.flatMap utf8EncodeChar

/-- The base64 alphabet, in index order. -/
def b64Alphabet : List Char :=
  "ABCDEFGHIJKLMNOPQRSTUVWXYZabcdefghijklmnopqrstuvwxyz0123456789+/".data

def sixToChar (n : Nat) : Char := b64Alphabet.getD n 'A'

def charToSix (c : Char) : Option Nat :=
  let i := b64Alphabet.indexOf c
  if i < 64 then some i else none

/-- Base64 encoding of a byte list, with `=` padding, chunked three bytes at
a time exactly as Node's encoder emits it. -/
def b64EncodeChars : List Nat → List Char
  | [] => []
  | [a] => [sixToChar (a / 4), sixToChar (a % 4 * 16), '=', '=']
  | [a, b] => [sixToChar (a / 4), sixToChar (a % 4 * 16 + b / 16), sixToChar (b % 16 * 4), '=']
  | a :: b :: c :: rest =>
      sixToChar (a / 4) :: sixToChar (a % 4 * 16 + b / 16) ::
        sixToChar (b % 16 * 4 + c / 64) :: sixToChar (c % 64) :: b64EncodeChars rest

def base64Encode (bytes : List Nat) : String := String.mk (b64EncodeChars bytes)

/-- Base64 decoding (strict: length a multiple of four, padding only at the
end), the left inverse of `b64EncodeChars`. -/
def b64DecodeChars : List Char → Option (List Nat)
  | [] => some []
  | c1 :: c2 :: c3 :: c4 :: rest =>
      if c3 = '=' ∧ c4 = '=' ∧ rest = [] then
        match charToSix c1, charToSix c2 with
        | some n1, some n2 => some [n1 * 4 + n2 / 16]
        | _, _ => none
      else if c4 = '=' ∧ rest = [] then
        match charToSix c1, charToSix c2, charToSix c3 with
        | some n1, some n2, some n3 =>
            some [n1 * 4 + n2 / 16, n2 % 16 * 16 + n3 / 4]
        | _, _, _ => none
      else
        match charToSix c1, charToSix c2, charToSix c3, charToSix c4, b64DecodeChars rest with
        | some n1, some n2, some n3, some n4, some tl =>
            some ((n1 * 4 + n2 / 16) :: (n2 % 16 * 16 + n3 / 4) :: (n3 % 4 * 64 + n4) :: tl)
        | _, _, _, _, _ => none
  | _ => none

def base64Decode (s : String) : Option (List Nat) := b64DecodeChars s.data

theorem charToSix_sixToChar (n : Nat) (h : n < 64) : charToSix (sixToChar n) = some n := by
  have hall : ∀ m, m < 64 → charToSix (sixToChar m) = some m := by decide
  exact hall n h

theorem sixToChar_ne_pad (n : Nat) : sixToChar n ≠ '=' := by
  by_cases h : n < 64
  · have hall : ∀ m, m < 64 → sixToChar m ≠ '=' := by decide
    exact hall n h
  · have hlen : b64Alphabet.length = 64 := by decide
    unfold sixToChar
    rw [List.getD_eq_default]
    · decide
    · omega

theorem b64EncodeChars_ne_nil (l : List Nat) (h : l ≠ []) : b64EncodeChars l ≠ [] := by
  match l with
  | [] => exact absurd rfl h
  | [a] => simp [b64EncodeChars]
  | [a, b] => simp [b64EncodeChars]
  | a :: b :: c :: rest => simp [b64EncodeChars]

theorem pack_div16 (hi lo : Nat) (h : lo < 16) : (hi * 16 + lo) / 16 = hi := by omega

theorem pack_mod16 (hi lo : Nat) (h : lo < 16) : (hi * 16 + lo) % 16 = lo := by omega

theorem pack_div4 (hi lo : Nat) (h : lo < 4) : (hi * 4 + lo) / 4 = hi := by omega

theorem pack_mod4 (hi lo : Nat) (h : lo < 4) : (hi * 4 + lo) % 4 = lo := by omega

theorem mul_div_self16 (x : Nat) : x * 16 / 16 = x := by omega

theorem mul_div_self4 (x : Nat) : x * 4 / 4 = x := by omega

theorem b64_decode_encode (l : List Nat) (h : ∀ x ∈ l, x < 256) :
    b64DecodeChars (b64EncodeChars l) = some l := by
  induction l using b64EncodeChars.induct with
  | case1 => simp [b64EncodeChars, b64DecodeChars]
  | case2 a =>
      have ha : a < 256 := h a (by simp)
      have h1 : a / 4 < 64 := by omega
      have h2 : a % 4 * 16 < 64 := by omega
      have e1 : a / 4 * 4 + a % 4 * 16 / 16 = a := by
        rw [mul_div_self16]
        omega
      simp [b64EncodeChars, b64DecodeChars, charToSix_sixToChar _ h1,
        charToSix_sixToChar _ h2, e1]
      omega
  | case3 a b =>
      have ha : a < 256 := h a (by simp)
      have hb : b < 256 := h b (by simp)
      have h1 : a / 4 < 64 := by omega
      have h2 : a % 4 * 16 + b / 16 < 64 := by omega
      have h3 : b % 16 * 4 < 64 := by omega
      have e1 : a / 4 * 4 + (a % 4 * 16 + b / 16) / 16 = a := by
        rw [pack_div16 (a % 4) (b / 16) (by omega)]
        omega
      have e2 : (a % 4 * 16 + b / 16) % 16 * 16 + b % 16 * 4 / 4 = b := by
        rw [pack_mod16 (a % 4) (b / 16) (by omega), mul_div_self4]
        omega
      simp [b64EncodeChars, b64DecodeChars, sixToChar_ne_pad, charToSix_sixToChar _ h1,
        charToSix_sixToChar _ h2, charToSix_sixToChar _ h3, e1, e2]
      rw [pack_mod16 (a % 4) (b / 16) (by omega)]
      omega
  | case4 a b c rest ih =>
      have ha : a < 256 := h a (by simp)
      have hb : b < 256 := h b (by simp)
      have hc : c < 256 := h c (by simp)
      have hrest : ∀ x ∈ rest, x < 256 := fun x hx => h x (by simp [hx])
      have h1 : a / 4 < 64 := by omega
      have h2 : a % 4 * 16 + b / 16 < 64 := by omega
      have h3 : b % 16 * 4 + c / 64 < 64 := by omega
      have h4 : c % 64 < 64 := by omega
      have e1 : a / 4 * 4 + (a % 4 * 16 + b / 16) / 16 = a := by
        rw [pack_div16 (a % 4) (b / 16) (by omega)]
        omega
      have e2 : (a % 4 * 16 + b / 16) % 16 * 16 + (b % 16 * 4 + c / 64) / 4 = b := by
        rw [pack_mod16 (a % 4) (b / 16) (by omega), pack_div4 (b % 16) (c / 64) (by omega)]
        omega
      have e3 : (b % 16 * 4 + c / 64) % 4 * 64 + c % 64 = c := by
        rw [pack_mod4 (b % 16) (c / 64) (by omega)]
        omega
      simp [b64EncodeChars, b64DecodeChars, sixToChar_ne_pad, charToSix_sixToChar _ h1,
        charToSix_sixToChar _ h2, charToSix_sixToChar _ h3, charToSix_sixToChar _ h4,
        ih hrest, e1, e2, e3]

theorem utf8EncodeChar_lt (c : Char) : ∀ x ∈ utf8EncodeChar c, x < 256 := by
  have hv : c.toNat < 1114112 := by
    have hval := c.valid
    have e : c.toNat = c.val.toNat := rfl
    rcases hval with hval | hval <;> omega
  intro x hx
  unfold utf8EncodeChar at hx
  split at hx
  · simp only [List.mem_singleton] at hx
    omega
  · split at hx
    · simp only [List.mem_cons, List.mem_singleton, List.not_mem_nil, or_false] at hx
      rcases hx with hx | hx <;> omega
    · split at hx
      · simp only [List.mem_cons, List.not_mem_nil, or_false] at hx
        rcases hx with hx | hx | hx <;> omega
      · simp only [List.mem_cons, List.not_mem_nil, or_false] at hx
        rcases hx with hx | hx | hx | hx <;> omega

theorem utf8Bytes_lt (s : String) : ∀ x ∈ utf8Bytes s, x < 256 := by
  intro x hx
  unfold utf8Bytes at hx
  rw [List.mem_flatMap] at hx
  obtain ⟨c, _, hc⟩ := hx
  exact utf8EncodeChar_lt c x hc

theorem base64Decode_base64Encode (s : String) :
    base64Decode (base64Encode (utf8Bytes s)) = some (utf8Bytes s) := by
  unfold base64Decode base64Encode
  exact b64_decode_encode _ (utf8Bytes_lt s)

theorem utf8EncodeChar_ne_nil (c : Char) : utf8EncodeChar c ≠ [] := by
  unfold utf8EncodeChar
  split
  · simp
  · split
    · simp
    · split <;> simp

theorem utf8Bytes_ne_nil (s : String) (h : s.data ≠ []) : utf8Bytes s ≠ [] := by
  unfold utf8Bytes
  cases hd : s.data with
  | nil => exact absurd hd h
  | cons c cs =>
      simp only [List.flatMap_cons, ne_eq, List.append_eq_nil]
      intro hcon
      exact utf8EncodeChar_ne_nil c hcon.1

theorem base64Encode_ne_empty (s : String) (h : s.data ≠ []) :
    base64Encode (utf8Bytes s) ≠ "" := by
  unfold base64Encode
  intro hcon
  have hchars : b64EncodeChars (utf8Bytes s) = [] := by
    have := congrArg String.data hcon
    simpa using this
  exact b64EncodeChars_ne_nil _ (utf8Bytes_ne_nil s h) hchars

/-! ## Renderer (`renderer.ts`, class `MermaidRenderer`) -/

/-- The four color roles the SVG template reads off the value returned by
`getThemeColors`.  Each role is an `Option` because the JS property access
can yield `undefined`: when `themes[theme]` hits a value inherited from
`Object.prototype` (see `getThemeColors`), the returned object is not a
palette and carries none of the four properties. -/
structure ThemeColors where
  nodeColor : Option String
  strokeColor : Option String
  edgeColor : Option String
  textColor : Option String
deriving DecidableEq

/-- Property names every plain object literal inherits from
`Object.prototype`.  For these, `themes[theme]` is a truthy non-palette
value (a built-in function, or `Object.prototype` itself for `__proto__`),
so the `|| themes.default` fallback does not fire. -/
def objectPrototypeKeys : List String :=
  ["constructor", "toString", "toLocaleString", "valueOf", "hasOwnProperty",
    "isPrototypeOf", "propertyIsEnumerable", "__defineGetter__", "__defineSetter__",
    "__lookupGetter__", "__lookupSetter__", "__proto__"]

/-- `MermaidRenderer.getThemeColors`: the literal `themes` table followed by
`themes[theme] || themes.default`.  The lookup follows the JS prototype
chain: the four own keys yield their palettes; a name inherited from
`Object.prototype` yields a truthy non-palette value that is returned
as-is, so every color role read from it is `undefined`; only the remaining
names produce `undefined` and fall back to the `default` palette. -/
def getThemeColors (theme : String) : ThemeColors :=
  if theme = "default" then ⟨some "#fff", some "#333", some "#333", some "#333"⟩
  else if theme = "dark" then ⟨some "#2d2d30", some "#d4d4d4", some "#d4d4d4", some "#d4d4d4"⟩
  else if theme = "forest" then ⟨some "#f9f9f9", some "#4a5d23", some "#4a5d23", some "#2d3748"⟩
  else if theme = "neutral" then ⟨some "#f8f9fa", some "#6c757d", some "#6c757d", some "#495057"⟩
  else if theme ∈ objectPrototypeKeys then ⟨none, none, none, none⟩
  else ⟨some "#fff", some "#333", some "#333", some "#333"⟩

/-- The `ExportOptions` interface.  `diagramCode` is an `Option` because the
untyped tool layer can pass JavaScript `undefined` despite the TS type, and
`format` is an open string because the dispatch is a runtime string switch. -/
structure ExportOptions where
  diagramCode : Option String
  format : String
  theme : Option String := none
  width : Option Nat := none
  height : Option Nat := none
  outputPath : Option String := none

/-- The `ExportResult` interface. -/
structure ExportResult where
  success : Bool
  outputPath : Option String := none
  base64Data : Option String := none
  size : String
  details : String
deriving DecidableEq

/-- A `writeFileSync(path, content)` call performed during export. -/
structure FileWrite where
  path : String
  content : String
deriving DecidableEq

/-- The part of the `generateSVGTemplate` literal before the interpolated
(truncated) diagram code. -/
def svgTemplateBeforeCode (themeColors : ThemeColors) : String :=
  "<?xml version=\"1.0\" encoding=\"UTF-8\"?>\n<svg width=\"400\" height=\"300\" xmlns=\"http://www.w3.org/2000/svg\">\n  <defs>\n    <style>\n      .node \x7b fill: "
    ++ jsInterp themeColors.nodeColor ++ "; stroke: " ++ jsInterp themeColors.strokeColor
    ++ "; stroke-width: 2; \x7d\n      .edge \x7b stroke: " ++ jsInterp themeColors.edgeColor
    ++ "; stroke-width: 2; \x7d\n      .label \x7b fill: " ++ jsInterp themeColors.textColor
    ++ "; font-family: Arial, sans-serif; font-size: 12px; \x7d\n    </style>\n  </defs>\n  \n  <!-- Generated from Mermaid code: "

/-- The part of the `generateSVGTemplate` literal after the interpolated
diagram code: the two fixed demo nodes, the connecting edge and the arrow
marker (which interpolates the edge color a second time). -/
def svgTemplateAfterCode (themeColors : ThemeColors) : String :=
  "... -->\n  <rect class=\"node\" x=\"50\" y=\"50\" width=\"100\" height=\"40\" rx=\"5\"/>\n  <text class=\"label\" x=\"100\" y=\"75\" text-anchor=\"middle\">Start</text>\n  \n  <line class=\"edge\" x1=\"150\" y1=\"70\" x2=\"200\" y2=\"70\" marker-end=\"url(#arrow)\"/>\n  \n  <rect class=\"node\" x=\"200\" y=\"50\" width=\"100\" height=\"40\" rx=\"5\"/>\n  <text class=\"label\" x=\"250\" y=\"75\" text-anchor=\"middle\">Process</text>\n  \n  <defs>\n    <marker id=\"arrow\" markerWidth=\"10\" markerHeight=\"10\" refX=\"9\" refY=\"3\" orient=\"auto\">\n      <polygon points=\"0 0, 10 3, 0 6\" fill=\""
    ++ jsInterp themeColors.edgeColor ++ "\"/>\n    </marker>\n  </defs>\n</svg>"

/-- `MermaidRenderer.generateSVGTemplate`.  The diagram source only enters
through `diagramCode.slice(0, 50)` inside an XML comment; slicing raises a
TypeError when the tool layer passed `undefined`. -/
def generateSVGTemplate (diagramCode : Option String) (theme : String) : Except String String :=
  let themeColors := getThemeColors theme
  match jsSlice 50 diagramCode with
  | .error e => .error e
  | .ok sliced =>
      .ok (svgTemplateBeforeCode themeColors ++ sliced ++ svgTemplateAfterCode themeColors)

/-- `MermaidRenderer.generateHTMLTemplate`: a standalone document embedding
the raw diagram source, with a dark/light style switch on `theme === 'dark'`
and the theme name passed to `mermaid.initialize`. -/
def generateHTMLTemplate (diagramCode : Option String) (theme : String) : String :=
  "<!DOCTYPE html>\n<html lang=\"en\">\n<head>\n    <meta charset=\"UTF-8\">\n    <meta name=\"viewport\" content=\"width=device-width, initial-scale=1.0\">\n    <title>Mermaid Diagram</title>\n    <script src=\"https://cdn.jsdelivr.net/npm/mermaid@10.6.1/dist/mermaid.min.js\"></script>\n    <style>\n        body \x7b\n            margin: 0;\n            padding: 20px;\n            font-family: -apple-system, BlinkMacSystemFont, \x27Segoe UI\x27, Roboto, sans-serif;\n            "
    ++ (if theme = "dark" then "background: #1e1e1e; color: #d4d4d4;"
        else "background: white; color: black;")
    ++ "\n        \x7d\n        .diagram-container \x7b\n            text-align: center;\n            padding: 20px;\n        \x7d\n    </style>\n</head>\n<body>\n    <div class=\"diagram-container\">\n        <h1>Generated Diagram</h1>\n        <div class=\"mermaid\">\n"
    ++ jsInterp diagramCode
    ++ "\n        </div>\n    </div>\n    \n    <script>\n        mermaid.initialize(\x7b \n            startOnLoad: true,\n            theme: \x27"
    ++ theme
    ++ "\x27,\n            securityLevel: \x27loose\x27\n        \x7d);\n    </script>\n</body>\n</html>"

/-- `MermaidRenderer.renderSVG`.  With an output path the SVG text is
written to the (unresolved) path and the result reports the resolved
absolute path; otherwise the SVG is returned base64-encoded inline. -/
def renderSVG (cwd : String) (diagramCode : Option String) (theme : String)
    (outputPath : Option String) : Except String (ExportResult × Option FileWrite) :=
  match generateSVGTemplate diagramCode theme with
  | .error e => .error e
  | .ok svg =>
      match outputPath with
      | some path =>
          .ok (⟨true, some (resolvePath cwd path), none, kbSize (utf16Length svg),
            "SVG exported successfully with " ++ theme ++ " theme"⟩, some ⟨path, svg⟩)
      | none =>
          .ok (⟨true, none, some (base64Encode (utf8Bytes svg)), kbSize (utf16Length svg),
            "SVG generated as base64 with " ++ theme ++ " theme"⟩, none)

/-- The constant inline payload of `renderPNG` (a pre-baked 1×1 PNG). -/
def pngPlaceholderBase64 : String :=
  "iVBORw0KGgoAAAANSUhEUgAAAAEAAAABCAYAAAAfFcSJAAAADUlEQVR42mNkYPhfDwAChwGA60e6kgAAAABJRU5ErkJggg=="

/-- `MermaidRenderer.renderPNG`: placeholder behavior, no real rasterizer.
With an output path a short text placeholder is written; otherwise the
constant pre-baked base64 blob is returned, always with size `~150KB`. -/
def renderPNG (cwd : String) (diagramCode : Option String) (theme : String)
    (width height : Nat) (outputPath : Option String) :
    Except String (ExportResult × Option FileWrite) :=
  let details := "PNG would be rendered at " ++ toString width ++ "x" ++ toString height
    ++ " with " ++ theme ++ " theme"
  match outputPath with
  | some path =>
      match jsSlice 50 diagramCode with
      | .error e => .error e
      | .ok sliced =>
          .ok (⟨true, some (resolvePath cwd path), none, "~150KB", details⟩,
            some ⟨path, "PNG export placeholder for diagram: " ++ sliced ++ "..."⟩)
  | none =>
      .ok (⟨true, none, some pngPlaceholderBase64, "~150KB", details⟩, none)

/-- The constant inline payload of `renderPDF` (a pre-baked empty PDF). -/
def pdfPlaceholderBase64 : String :=
  "JVBERi0xLjQKJeL+LywKMSAwIG9iago8PAovVHlwZSAvQ2F0YWxvZwovUGFnZXMgMiAwIFIKPj4KZW5kb2JqCjIgMCBvYmoKPDwKL1R5cGUgL1BhZ2VzCi9LaWRzIFsgXQovQ291bnQgMAo+PgplbmRvYmoKCnRyYWlsZXIKPDwKL1NpemUgMgovUm9vdCAxIDAgUgo+PgpzdGFydHhyZWYKMTU4CiUlRU9G"

/-- `MermaidRenderer.renderPDF`: placeholder behavior analogous to PNG,
always with size `~200KB`. -/
def renderPDF (cwd : String) (diagramCode : Option String) (theme : String)
    (outputPath : Option String) : Except String (ExportResult × Option FileWrite) :=
  let details := "PDF would be generated with " ++ theme ++ " theme"
  match outputPath with
  | some path =>
      match jsSlice 50 diagramCode with
      | .error e => .error e
      | .ok sliced =>
          .ok (⟨true, some (resolvePath cwd path), none, "~200KB", details⟩,
            some ⟨path, "PDF export placeholder for diagram: " ++ sliced ++ "..."⟩)
  | none =>
      .ok (⟨true, none, some pdfPlaceholderBase64, "~200KB", details⟩, none)

/-- `MermaidRenderer.renderHTML`: the HTML template written to the path or
returned base64-encoded inline.  Interpolation never dereferences the
diagram code, so this branch cannot raise. -/
def renderHTML (cwd : String) (diagramCode : Option String) (theme : String)
    (outputPath : Option String) : Except String (ExportResult × Option FileWrite) :=
  let html := generateHTMLTemplate diagramCode theme
  match outputPath with
  | some path =>
      .ok (⟨true, some (resolvePath cwd path), none, kbSize (utf16Length html),
        "Interactive HTML exported with " ++ theme ++ " theme"⟩, some ⟨path, html⟩)
  | none =>
      .ok (⟨true, none, some (base64Encode (utf8Bytes html)), kbSize (utf16Length html),
        "Interactive HTML generated with " ++ theme ++ " theme"⟩, none)

/-- `MermaidRenderer.exportDiagram`: destructure the options with their
declared defaults and dispatch on the format string; any other format value
throws `Unsupported format: <format>`.  The outer catch merely logs and
rethrows, so it does not change the returned value. -/
def exportDiagram (cwd : String) (options : ExportOptions) :
    Except String (ExportResult × Option FileWrite) :=
  let theme := options.theme.getD "default"
  let width := options.width.getD 1920
  let height := options.height.getD 1080
  match options.format with
  | "svg" => renderSVG cwd options.diagramCode theme options.outputPath
  | "png" => renderPNG cwd options.diagramCode theme width height options.outputPath
  | "pdf" => renderPDF cwd options.diagramCode theme options.outputPath
  | "html" => renderHTML cwd options.diagramCode theme options.outputPath
  | format => .error ("Unsupported format: " ++ format)

/-- The closed set of formats accepted by `exportDiagram`. -/
def supportedFormats : List String := ["svg", "png", "pdf", "html"]

/-- The keys of the `themes` table in `getThemeColors`. -/
def themeNames : List String := ["default", "dark", "forest", "neutral"]

/-! ## Tool handlers (`tools.ts`, class `MermaidTools`) -/

/-- One entry of a `ToolResponse.content` array.  Only `text` blocks are
ever produced by this system. -/
structure ContentBlock where
  type : String
  text : Option String := none
  data : Option String := none
  mimeType : Option String := none
deriving DecidableEq

/-- The `ToolResponse` interface. -/
structure ToolResponse where
  content : List ContentBlock
deriving DecidableEq

/-- The `ValidationError` interface. -/
structure ValidationError where
  line : Nat
  message : String
deriving DecidableEq

/-- The untyped `args: any` object a handler receives, restricted to the
argument names any of the six handlers destructure.  `none` models an
absent key (JavaScript `undefined`). -/
structure ToolArgs where
  code : Option String := none
  diagram_type : Option String := none
  language : Option String := none
  include_details : Option Bool := none
  diagram_code : Option String := none
  analysis_type : Option String := none
  context : Option String := none
  audience : Option String := none
  workflow_description : Option String := none
  workflow_type : Option String := none
  include_decision_points : Option Bool := none
  format : Option String := none
  output_path : Option String := none
  theme : Option String := none
  width : Option Nat := none
  height : Option Nat := none
  strict_mode : Option Bool := none
  provide_suggestions : Option Bool := none
deriving DecidableEq

/-- An argument object with no keys at all. -/
def emptyToolArgs : ToolArgs := {}

/-- Return shape of the `analyzeCodeStructure` stub (the unused empty
`structure` field is omitted). -/
structure CodeAnalysis where
  detectedType : String
  complexity : String
  elements : List String

/-- `MermaidTools.analyzeCodeStructure`: a constant stub that ignores both
arguments. -/
def analyzeCodeStructure (_code : Option String) (_language : Option String) : CodeAnalysis :=
  ⟨"flowchart", "medium", ["functions", "variables", "classes"]⟩

/-- `MermaidTools.generateDiagramCode`: a constant stub. -/
def generateDiagramCode (_analysis : CodeAnalysis) (_diagramType : String)
    (_includeDetails : Bool) : String :=
  "flowchart TD\n    A[Start] --> B[Process]\n    B --> C[End]"

/-- Return shape of the `performDiagramAnalysis` stub. -/
structure DiagramAnalysis where
  type : String
  nodeCount : Nat
  edgeCount : Nat
  complexityScore : Nat
  details : String
  recommendations : List String

/-- `MermaidTools.performDiagramAnalysis`: a constant stub. -/
def performDiagramAnalysis (_diagramCode : Option String) (_analysisType : String) :
    DiagramAnalysis :=
  ⟨"flowchart", 3, 2, 5, "Simple linear flow", ["Add decision points", "Include error handling"]⟩

/-- Return shape of the `generateImprovementSuggestions` stub.
`optimizedCode` carries the (possibly-`undefined`) input diagram code. -/
structure ImprovementSuggestion where
  title : String
  priority : String
  description : String
  implementation : String
  optimizedCode : Option String

/-- `MermaidTools.generateImprovementSuggestions`: one fixed suggestion
whose `optimizedCode` is the input diagram code. -/
def generateImprovementSuggestions (diagramCode : Option String) (_context : Option String)
    (_audience : String) : List ImprovementSuggestion :=
  [⟨"Improve Readability", "High", "Add clearer labels and grouping",
    "Use subgraphs and better node labels", diagramCode⟩]

/-- `MermaidTools.generateWorkflowDiagram`: template selection keyed on the
`format` string with a decision-branching flowchart as the default arm; the
description, type and decision flags are ignored. -/
def generateWorkflowDiagram (_description : Option String) (_workflowType : Option String)
    (_includeDecisions : Bool) (format : String) : String :=
  match format with
  | "sequence" =>
      "sequenceDiagram\n    participant A as User\n    participant B as System\n    A->>B: Request\n    B-->>A: Response"
  | "state" =>
      "stateDiagram-v2\n    [*] --> Idle\n    Idle --> Processing\n    Processing --> [*]"
  | "gantt" =>
      "gantt\n    title Project Timeline\n    dateFormat YYYY-MM-DD\n    section Phase 1\n    Task 1: 2024-01-01, 3d"
  | _ =>
      "flowchart TD\n    A[Start] --> B\x7bDecision\x7d\n    B -->|Yes| C[Action]\n    B -->|No| D[Alternative]\n    C --> E[End]\n    D --> E"

/-- Return shape of the `performSyntaxValidation` stub. -/
structure SyntaxValidation where
  isValid : Bool
  diagramType : String
  nodeCount : Nat
  complexity : String
  errors : List ValidationError
  suggestions : List String
  correctedCode : Option String

/-- `MermaidTools.performSyntaxValidation`: a constant stub that always
reports valid syntax with an empty error list. -/
def performSyntaxValidation (_diagramCode : Option String) (_strictMode : Bool) :
    SyntaxValidation :=
  ⟨true, "flowchart", 3, "low", [], [], none⟩

/-- `MermaidTools.validateDiagramSyntax`: destructure with defaults, run the
validation stub and render either the valid-syntax report or (unreachably,
given the stub) the error report with optional fixes and corrected code. -/
def validateDiagramSyntax (args : ToolArgs) : Except String ToolResponse :=
  let strict_mode := args.strict_mode.getD false
  let provide_suggestions := args.provide_suggestions.getD true
  let validation := performSyntaxValidation args.diagram_code strict_mode
  let response := "# Syntax Validation Results\n\n"
  let response :=
    if validation.isValid then
      response ++ "✅ **Valid Mermaid syntax**\n\n" ++ "## Diagram Info\n"
        ++ "- **Type**: " ++ validation.diagramType ++ "\n"
        ++ "- **Nodes**: " ++ toString validation.nodeCount ++ "\n"
        ++ "- **Complexity**: " ++ validation.complexity ++ "\n"
    else
      let response := response ++ "❌ **Invalid syntax found**\n\n" ++ "## Errors\n"
        ++ String.intercalate "\n"
          (validation.errors.map (fun e => "- **Line " ++ toString e.line ++ "**: " ++ e.message))
        ++ "\n\n"
      if provide_suggestions ∧ validation.suggestions.length > 0 then
        let response := response ++ "## Suggested Fixes\n"
          ++ String.intercalate "\n" (validation.suggestions.map (fun s => "- " ++ s)) ++ "\n\n"
        if jsTruthyStr validation.correctedCode then
          response ++ "## Corrected Code\n```mermaid\n" ++ jsInterp validation.correctedCode ++ "\n```"
        else response
      else response
  .ok ⟨[⟨"text", some response, none, none⟩]⟩

/-- `MermaidTools.generateDiagramFromCode`: the stubs never raise, so the
handler always succeeds — even when the required `code` argument is absent.
The nested `validateDiagramSyntax` call checks its first block for `✅`. -/
def generateDiagramFromCode (args : ToolArgs) : Except String ToolResponse :=
  let diagram_type := args.diagram_type.getD "auto"
  let include_details := args.include_details.getD false
  let analysis := analyzeCodeStructure args.code args.language
  let diagramCode := generateDiagramCode analysis diagram_type include_details
  match validateDiagramSyntax { diagram_code := some diagramCode } with
  | .error e => .error ("Failed to generate diagram from code: " ++ e)
  | .ok validation =>
      let syntaxValid :=
        match validation.content with
        | [] => false
        | block :: _ =>
            match block.text with
            | none => false
            | some t => strContains t "✅"
      .ok ⟨[⟨"text", some ("# Generated " ++ analysis.detectedType ++ " Diagram\n\n```mermaid\n"
        ++ diagramCode ++ "\n```\n\n## Analysis Summary\n- **Detected Type**: "
        ++ analysis.detectedType ++ "\n- **Complexity**: " ++ analysis.complexity
        ++ "\n- **Elements**: " ++ String.intercalate ", " analysis.elements
        ++ "\n- **Syntax Valid**: " ++ (if syntaxValid then "Yes" else "No")), none, none⟩]⟩

/-- `MermaidTools.analyzeDiagramStructure`: the analysis stub is constant
and the response text never dereferences `diagram_code`, so the handler
always succeeds. -/
def analyzeDiagramStructure (args : ToolArgs) : Except String ToolResponse :=
  let analysis_type := args.analysis_type.getD "full"
  let analysis := performDiagramAnalysis args.diagram_code analysis_type
  .ok ⟨[⟨"text", some ("# Diagram Structure Analysis\n\n## Overview\n- **Type**: "
    ++ analysis.type ++ "\n- **Nodes**: " ++ toString analysis.nodeCount
    ++ "\n- **Edges**: " ++ toString analysis.edgeCount ++ "\n- **Complexity Score**: "
    ++ toString analysis.complexityScore ++ "/10\n\n## Structure Details\n" ++ analysis.details
    ++ "\n\n## Recommendations\n"
    ++ String.intercalate "\n" (analysis.recommendations.map (fun r => "- " ++ r))), none, none⟩]⟩

/-- `MermaidTools.suggestDiagramImprovements`: the optimized version is
`suggestions.find(s => s.optimizedCode)?.optimizedCode || diagram_code`,
which interpolates `"undefined"` when the diagram code is absent. -/
def suggestDiagramImprovements (args : ToolArgs) : Except String ToolResponse :=
  let audience := args.audience.getD "general"
  let suggestions := generateImprovementSuggestions args.diagram_code args.context audience
  let listed := String.intercalate "\n" ((suggestions.enum).map (fun p =>
    "### " ++ toString (p.1 + 1) ++ ". " ++ p.2.title ++ "\n**Priority**: " ++ p.2.priority
      ++ "\n**Description**: " ++ p.2.description ++ "\n**Implementation**: "
      ++ p.2.implementation ++ "\n"))
  let optimized :=
    match suggestions.find? (fun s => jsTruthyStr s.optimizedCode) with
    | some s => jsInterp s.optimizedCode
    | none => jsInterp args.diagram_code
  .ok ⟨[⟨"text", some ("# Diagram Improvement Suggestions\n\n## For " ++ audience
    ++ " audience\n\n" ++ listed ++ "\n\n## Optimized Version\n```mermaid\n" ++ optimized
    ++ "\n```"), none, none⟩]⟩

/-- `MermaidTools.createWorkflowDiagram`: the response template dereferences
`workflow_type` (`.toUpperCase()`) and `workflow_description` (`.slice`), so
a missing required argument raises a TypeError that the handler catch
rewraps; otherwise the selected workflow template is returned. -/
def createWorkflowDiagram (args : ToolArgs) : Except String ToolResponse :=
  let include_decision_points := args.include_decision_points.getD true
  let format := args.format.getD "flowchart"
  let workflowDiagram := generateWorkflowDiagram args.workflow_description args.workflow_type
    include_decision_points format
  match args.workflow_type with
  | none =>
      .error "Failed to create workflow diagram: Cannot read properties of undefined (reading \x27toUpperCase\x27)"
  | some workflow_type =>
      match args.workflow_description with
      | none =>
          .error "Failed to create workflow diagram: Cannot read properties of undefined (reading \x27slice\x27)"
      | some workflow_description =>
          .ok ⟨[⟨"text", some ("# " ++ jsToUpperCase workflow_type
            ++ " Workflow Diagram\n\n```mermaid\n" ++ workflowDiagram
            ++ "\n```\n\n## Workflow Features\n- **Type**: " ++ workflow_type
            ++ "\n- **Format**: " ++ format ++ "\n- **Decision Points**: "
            ++ (if include_decision_points then "Included" else "Not included")
            ++ "\n- **Generated from**: " ++ jsSliceStr 100 workflow_description
            ++ (if utf16Length workflow_description > 100 then "..." else "")), none, none⟩]⟩

/-- `MermaidTools.exportDiagramFormats`: forwards the destructured
arguments to `exportDiagram` and rewraps any renderer failure as
`Failed to export diagram: <message>`.  A missing `format` behaves exactly
like the unmatchable string `"undefined"` (the switch falls to its default
arm either way), which `jsInterp` realizes. -/
def exportDiagramFormats (cwd : String) (args : ToolArgs) : Except String ToolResponse :=
  let theme := args.theme.getD "default"
  let width := args.width.getD 1920
  let height := args.height.getD 1080
  match exportDiagram cwd ⟨args.diagram_code, jsInterp args.format, some theme, some width,
      some height, args.output_path⟩ with
  | .error e => .error ("Failed to export diagram: " ++ e)
  | .ok (exportResult, _write) =>
      .ok ⟨[⟨"text", some ("# Diagram Export Complete\n\n- **Format**: "
        ++ jsToUpperCase (jsInterp args.format) ++ "\n- **Theme**: " ++ theme
        ++ "\n- **Dimensions**: " ++ toString width ++ "x" ++ toString height
        ++ "\n- **Output**: "
        ++ (if jsTruthyStr exportResult.outputPath then jsInterp exportResult.outputPath
            else "Base64 encoded")
        ++ "\n- **Size**: " ++ exportResult.size ++ "\n\n## Export Details\n"
        ++ exportResult.details), none, none⟩]⟩

/-! ## Dispatcher and tool catalog (`index.ts`, class `MermaidServer`) -/

/-- A JSON literal as used for schema `default` values. -/
inductive JsLit where
  | str (s : String)
  | bool (b : Bool)
  | num (n : Nat)
deriving DecidableEq

/-- One tool of the catalog returned by the `ListToolsRequestSchema`
handler: its name, the `required` array of its input schema, and for each
declared property whether the schema carries a `default` value (enum
constraints and descriptions are not needed by any claim and elided). -/
structure ToolDescriptor where
  name : String
  required : List String
  properties : List (String × Option JsLit)
deriving DecidableEq

/-- The full catalog, transcribed from the listing handler in `index.ts`. -/
def toolList : List ToolDescriptor :=
  [⟨"generate_diagram_from_code", ["code"],
    [("code", none), ("diagram_type", none), ("language", none),
      ("include_details", some (.bool false))]⟩,
   ⟨"analyze_diagram_structure", ["diagram_code"],
    [("diagram_code", none), ("analysis_type", some (.str "full"))]⟩,
   ⟨"suggest_diagram_improvements", ["diagram_code"],
    [("diagram_code", none), ("context", none), ("audience", some (.str "general"))]⟩,
   ⟨"create_workflow_diagram", ["workflow_description", "workflow_type"],
    [("workflow_description", none), ("workflow_type", none),
      ("include_decision_points", some (.bool true)), ("format", some (.str "flowchart"))]⟩,
   ⟨"export_diagram_formats", ["diagram_code", "format"],
    [("diagram_code", none), ("format", none), ("output_path", none),
      ("theme", some (.str "default")), ("width", some (.num 1920)),
      ("height", some (.num 1080))]⟩,
   ⟨"validate_diagram_syntax", ["diagram_code"],
    [("diagram_code", none), ("strict_mode", some (.bool false)),
      ("provide_suggestions", some (.bool true))]⟩]

/-- The destructuring each handler in `tools.ts` performs on its `args`
object: the argument names it pulls out and the default (if any) it
substitutes for an absent value. -/
def handlerDestructurings : List (String × List (String × Option JsLit)) :=
  [("generate_diagram_from_code",
    [("code", none), ("diagram_type", some (.str "auto")), ("language", none),
      ("include_details", some (.bool false))]),
   ("analyze_diagram_structure",
    [("diagram_code", none), ("analysis_type", some (.str "full"))]),
   ("suggest_diagram_improvements",
    [("diagram_code", none), ("context", none), ("audience", some (.str "general"))]),
   ("create_workflow_diagram",
    [("workflow_description", none), ("workflow_type", none),
      ("include_decision_points", some (.bool true)), ("format", some (.str "flowchart"))]),
   ("export_diagram_formats",
    [("diagram_code", none), ("format", none), ("output_path", none),
      ("theme", some (.str "default")), ("width", some (.num 1920)),
      ("height", some (.num 1080))]),
   ("validate_diagram_syntax",
    [("diagram_code", none), ("strict_mode", some (.bool false)),
      ("provide_suggestions", some (.bool true))])]

/-- The arguments whose absence makes a handler raise (for every valid
assignment of the remaining arguments in the case of
`create_workflow_diagram`, and for the formats that dereference the diagram
code in the case of `export_diagram_formats`): `workflow_type` and
`workflow_description` are dereferenced by the response template, `format`
makes the renderer switch throw on `undefined`, and `diagram_code` is
sliced by the svg/png/pdf renderers.  No other handler dereferences an
absent argument. -/
def handlerRequired : String → List String
  | "create_workflow_diagram" => ["workflow_description", "workflow_type"]
  | "export_diagram_formats" => ["diagram_code", "format"]
  | _ => []

/-- Declared schema `default` of a property of a tool, `none` when the tool
or property is unknown or carries no default. -/
def schemaDeclaredDefault (tool property : String) : Option JsLit :=
  match toolList.find? (fun d => d.name == tool) with
  | some d =>
      match d.properties.find? (fun q => q.1 == property) with
      | some q => q.2
      | none => none
  | none => none

/-- Default a handler substitutes for an absent argument, `none` when the
tool or argument is unknown or destructured without a default. -/
def handlerSubstitutedDefault (tool argument : String) : Option JsLit :=
  match handlerDestructurings.find? (fun e => e.1 == tool) with
  | some e =>
      match e.2.find? (fun q => q.1 == argument) with
      | some q => q.2
      | none => none
  | none => none

/-- The `required` array of a tool's schema. -/
def requiredOf (tool : String) : List String :=
  match toolList.find? (fun d => d.name == tool) with
  | some d => d.required
  | none => []

/-- The six registered tool names, in catalog order. -/
def toolNames : List String := toolList.map (fun d => d.name)

/-- The `try` block of the `CallToolRequestSchema` handler: exact string
match on the tool name, calling the matching `MermaidTools` handler; an
unmatched name throws `Unknown tool: <name>`. -/
def dispatchTool (cwd name : String) (args : ToolArgs) : Except String ToolResponse :=
  match name with
  | "generate_diagram_from_code" => generateDiagramFromCode args
  | "analyze_diagram_structure" => analyzeDiagramStructure args
  | "suggest_diagram_improvements" => suggestDiagramImprovements args
  | "create_workflow_diagram" => createWorkflowDiagram args
  | "export_diagram_formats" => exportDiagramFormats cwd args
  | "validate_diagram_syntax" => validateDiagramSyntax args
  | _ => .error ("Unknown tool: " ++ name)

/-- The `catch` arm of the `CallToolRequestSchema` handler: any thrown
error is rendered as a single-text-block response naming the tool and the
failure message. -/
def errorResponse (name message : String) : ToolResponse :=
  ⟨[⟨"text", some ("Error executing " ++ name ++ ": " ++ message), none, none⟩]⟩

/-- The complete `CallToolRequestSchema` handler: the `try` block with its
catch-all degradation.  Total by construction — every invocation produces a
normally-shaped `ToolResponse`. -/
def callTool (cwd name : String) (args : ToolArgs) : ToolResponse :=
  match dispatchTool cwd name args with
  | .ok result => result
  | .error message => errorResponse name message

/-! ## Helper lemmas for substring facts -/

theorem containsChars_mono_left (p a b : List Char) (h : containsChars p b = true) :
    containsChars p (a ++ b) = true := by
  induction a with
  | nil => simpa using h
  | cons x xs ih =>
      simp only [List.cons_append, containsChars, List.append_eq, ih, Bool.or_true]

theorem strContains_mono_append_r (s t pat : String) (h : strContains s pat = true) :
    strContains (s ++ t) pat = true := by
  unfold strContains at *
  rw [String.data_append]
  exact containsChars_mono_right _ _ _ h

theorem strContains_mono_append_l (s t pat : String) (h : strContains t pat = true) :
    strContains (s ++ t) pat = true := by
  unfold strContains at *
  rw [String.data_append]
  exact containsChars_mono_left _ _ _ h

theorem strContains_of_data_parts (s pat : String) (a b : List Char)
    (h : s.data = a ++ pat.data ++ b) : strContains s pat = true := by
  unfold strContains
  rw [h]
  exact containsChars_append_self _ _ _

theorem svgTemplateBeforeCode_has_canvas (tc : ThemeColors) :
    strContains (svgTemplateBeforeCode tc) "<svg width=\"400\" height=\"300\"" = true := by
  unfold svgTemplateBeforeCode
  repeat apply strContains_mono_append_r
  decide

theorem svgTemplateBeforeCode_has_strokeColor (tc : ThemeColors) :
    strContains (svgTemplateBeforeCode tc) (jsInterp tc.strokeColor) = true := by
  unfold svgTemplateBeforeCode
  apply strContains_mono_append_r
  apply strContains_mono_append_r
  apply strContains_mono_append_r
  apply strContains_mono_append_r
  apply strContains_mono_append_r
  exact strContains_append_right _ _

theorem svgTemplateAfterCode_has_demo (tc : ThemeColors) :
    strContains (svgTemplateAfterCode tc) "<rect class=\"node\" x=\"50\" y=\"50\"" = true ∧
    strContains (svgTemplateAfterCode tc) "<rect class=\"node\" x=\"200\" y=\"50\"" = true ∧
    strContains (svgTemplateAfterCode tc)
      "<line class=\"edge\" x1=\"150\" y1=\"70\" x2=\"200\" y2=\"70\"" = true := by
  unfold svgTemplateAfterCode
  refine ⟨?_, ?_, ?_⟩ <;>
    · repeat apply strContains_mono_append_r
      decide

/-! ## Claim theorems -/

/-- The constant text of every `validate_diagram_syntax` response. -/
def syntaxValidReportText : String :=
  "# Syntax Validation Results\n\n✅ **Valid Mermaid syntax**\n\n## Diagram Info\n- **Type**: flowchart\n- **Nodes**: 3\n- **Complexity**: low\n"

theorem validateDiagramSyntax_eq (args : ToolArgs) :
    validateDiagramSyntax args = .ok ⟨[⟨"text", some syntaxValidReportText, none, none⟩]⟩ := by
  have htext : "# Syntax Validation Results\n\n" ++ "✅ **Valid Mermaid syntax**\n\n"
      ++ "## Diagram Info\n" ++ "- **Type**: " ++ "flowchart" ++ "\n" ++ "- **Nodes**: "
      ++ toString (3 : Nat) ++ "\n" ++ "- **Complexity**: " ++ "low" ++ "\n"
      = syntaxValidReportText := by decide
  simp only [validateDiagramSyntax, performSyntaxValidation, if_true]
  rw [htext]

/-- C10: for every `diagram_code`, `strict_mode` and `provide_suggestions`,
`validate_diagram_syntax` returns the fixed valid-syntax report (type
flowchart, 3 nodes, low complexity); the invalid-syntax branch is
unreachable because `performSyntaxValidation` always reports `isValid` with
an empty error list. -/
theorem validate_syntax_always_reports_valid (args : ToolArgs) :
    validateDiagramSyntax args = .ok ⟨[⟨"text", some syntaxValidReportText, none, none⟩]⟩ ∧
    (performSyntaxValidation args.diagram_code (args.strict_mode.getD false)).isValid = true ∧
    (performSyntaxValidation args.diagram_code (args.strict_mode.getD false)).errors = [] ∧
    strContains syntaxValidReportText "✅ **Valid Mermaid syntax**" = true ∧
    strContains syntaxValidReportText "- **Type**: flowchart" = true ∧
    strContains syntaxValidReportText "- **Nodes**: 3" = true ∧
    strContains syntaxValidReportText "- **Complexity**: low" = true :=
  ⟨validateDiagramSyntax_eq args, rfl, rfl, by decide, by decide, by decide, by decide⟩

/-- C4 (amended): absent optional arguments are substituted with the
declared defaults by every handler, but missing required arguments are not
validated: the handler proceeds with the `undefined` value, which for
`create_workflow_diagram` raises a TypeError surfaced via the degradation
policy, while `validate_diagram_syntax` and `generate_diagram_from_code`
succeed with their stub reports instead of an `InvalidArguments` error. -/
theorem argument_destructuring_defaults (cwd : String) (args : ToolArgs) :
    generateDiagramFromCode { args with diagram_type := none, include_details := none } =
      generateDiagramFromCode { args with diagram_type := some "auto", include_details := some false } ∧
    analyzeDiagramStructure { args with analysis_type := none } =
      analyzeDiagramStructure { args with analysis_type := some "full" } ∧
    suggestDiagramImprovements { args with audience := none } =
      suggestDiagramImprovements { args with audience := some "general" } ∧
    createWorkflowDiagram { args with include_decision_points := none, format := none } =
      createWorkflowDiagram { args with include_decision_points := some true, format := some "flowchart" } ∧
    exportDiagramFormats cwd { args with theme := none, width := none, height := none } =
      exportDiagramFormats cwd { args with theme := some "default", width := some 1920, height := some 1080 } ∧
    validateDiagramSyntax { args with strict_mode := none, provide_suggestions := none } =
      validateDiagramSyntax { args with strict_mode := some false, provide_suggestions := some true } ∧
    (∃ e, createWorkflowDiagram { args with workflow_type := none } = .error e) ∧
    (∃ e, createWorkflowDiagram { args with workflow_type := some "git", workflow_description := none } = .error e) ∧
    (∃ r, validateDiagramSyntax { args with diagram_code := none } = .ok r) ∧
    (∃ r, generateDiagramFromCode { args with code := none } = .ok r) :=
  ⟨rfl, rfl, rfl, rfl, rfl, rfl, ⟨_, rfl⟩, ⟨_, rfl⟩, ⟨_, rfl⟩, ⟨_, rfl⟩⟩

/-- C4 counterexample: `diagram_code` is declared required for
`validate_diagram_syntax`, yet invoking the tool without it produces the
normal valid-syntax success response — not an `InvalidArguments` error
surfaced through the degradation policy. -/
theorem missing_required_argument_not_rejected :
    "diagram_code" ∈ requiredOf "validate_diagram_syntax" ∧
    emptyToolArgs.diagram_code = none ∧
    callTool "/work" "validate_diagram_syntax" emptyToolArgs =
      ⟨[⟨"text", some syntaxValidReportText, none, none⟩]⟩ ∧
    strContains syntaxValidReportText "Error executing" = false ∧
    strContains syntaxValidReportText "✅ **Valid Mermaid syntax**" = true :=
  ⟨by decide, rfl, rfl, by decide, by decide⟩

/-- C3 (amended): every default declared in a listed schema is exactly the
default its handler substitutes, every argument whose absence makes a
handler fail is declared required, and conversely every handler-substituted
default is declared in the schema with one exception: the
`generate_diagram_from_code` handler substitutes `'auto'` for
`diagram_type`, whose schema property declares no default. -/
theorem listing_schema_matches_handler_destructuring :
    (∀ d ∈ toolList, ∀ q ∈ d.properties,
      q.2 = none ∨ handlerSubstitutedDefault d.name q.1 = q.2) ∧
    (∀ e ∈ handlerDestructurings, ∀ q ∈ e.2,
      q.2 = none ∨ schemaDeclaredDefault e.1 q.1 = q.2 ∨
        (e.1 = "generate_diagram_from_code" ∧ q.1 = "diagram_type" ∧
          q.2 = some (JsLit.str "auto"))) ∧
    (∀ d ∈ toolList, ∀ f ∈ handlerRequired d.name, f ∈ d.required) ∧
    (∀ args : ToolArgs,
      generateDiagramFromCode { args with diagram_type := none } =
        generateDiagramFromCode { args with diagram_type := some "auto" }) :=
  ⟨by decide, by decide, by decide, fun _ => rfl⟩

/-- C3 counterexample: the `diagram_type` destructuring default `'auto'` of
the `generate_diagram_from_code` handler is declared nowhere in that tool's
listed schema (and the handler observably substitutes it). -/
theorem diagram_type_default_not_declared :
    handlerSubstitutedDefault "generate_diagram_from_code" "diagram_type"
      = some (JsLit.str "auto") ∧
    schemaDeclaredDefault "generate_diagram_from_code" "diagram_type" = none ∧
    generateDiagramFromCode emptyToolArgs =
      generateDiagramFromCode { emptyToolArgs with diagram_type := some "auto" } :=
  ⟨by decide, by decide, rfl⟩

/-- Witness for the amended C3 theorem at concrete catalog entries. -/
theorem listing_schema_matches_handler_destructuring_witness :
    ((some (JsLit.str "full") : Option JsLit) = none ∨
      handlerSubstitutedDefault "analyze_diagram_structure" "analysis_type"
        = some (JsLit.str "full")) ∧
    "workflow_type" ∈ ["workflow_description", "workflow_type"] :=
  ⟨listing_schema_matches_handler_destructuring.1
      ⟨"analyze_diagram_structure", ["diagram_code"],
        [("diagram_code", none), ("analysis_type", some (.str "full"))]⟩
      (by decide) ("analysis_type", some (.str "full")) (by decide),
    listing_schema_matches_handler_destructuring.2.2.1
      ⟨"create_workflow_diagram", ["workflow_description", "workflow_type"],
        [("workflow_description", none), ("workflow_type", none),
          ("include_decision_points", some (.bool true)), ("format", some (.str "flowchart"))]⟩
      (by decide) "workflow_type" (by decide)⟩

/-- C1: every failure raised inside the dispatcher's `try` block — handler
failures (including export-pipeline failures) and unknown tool names alike —
is converted at the boundary into a normally-shaped single-text-block
response containing the tool name and the failure message, successful
results pass through unchanged, and `callTool` is total, so an invocation
never propagates an exception to the caller. -/
theorem dispatcher_degrades_errors_to_text (cwd name : String) (args : ToolArgs) :
    (∀ message, dispatchTool cwd name args = .error message →
      callTool cwd name args =
        ⟨[⟨"text", some ("Error executing " ++ name ++ ": " ++ message), none, none⟩]⟩ ∧
      strContains ("Error executing " ++ name ++ ": " ++ message) name = true ∧
      strContains ("Error executing " ++ name ++ ": " ++ message) message = true) ∧
    (name ∉ toolNames →
      callTool cwd name args = errorResponse name ("Unknown tool: " ++ name) ∧
      strContains ("Error executing " ++ name ++ ": " ++ ("Unknown tool: " ++ name))
        "Unknown tool" = true) ∧
    (∀ result, dispatchTool cwd name args = .ok result → callTool cwd name args = result) := by
  have hunknown : name ∉ toolNames →
      dispatchTool cwd name args = .error ("Unknown tool: " ++ name) := by
    intro h
    unfold dispatchTool
    split
    all_goals first
      | rfl
      | exact absurd (by decide) h
  refine ⟨?_, ?_, ?_⟩
  · intro message h
    refine ⟨?_, ?_, ?_⟩
    · unfold callTool
      rw [h]
      rfl
    · exact strContains_of_data_parts _ _ "Error executing ".data (": " ++ message).data
        (by simp [String.data_append, List.append_assoc])
    · exact strContains_of_data_parts _ _
        ("Error executing ".data ++ name.data ++ ": ".data) []
        (by simp [String.data_append, List.append_assoc])
  · intro h
    have hd := hunknown h
    constructor
    · unfold callTool
      rw [hd]
    · have hsplit : ("Unknown tool: ").data = "Unknown tool".data ++ ": ".data := by decide
      exact strContains_of_data_parts _ _
        ("Error executing ".data ++ name.data ++ ": ".data) (": ".data ++ name.data)
        (by simp [String.data_append, hsplit, List.append_assoc])
  · intro result h
    unfold callTool
    rw [h]

/-- Witness for C1: a failing export invocation (unsupported format `bmp`)
degrades to the error text response, and so does an unknown tool name. -/
theorem dispatcher_degrades_errors_to_text_witness :
    dispatchTool "/work" "export_diagram_formats"
        { diagram_code := some "graph TD", format := some "bmp" } =
      .error "Failed to export diagram: Unsupported format: bmp" ∧
    callTool "/work" "export_diagram_formats"
        { diagram_code := some "graph TD", format := some "bmp" } =
      ⟨[⟨"text", some ("Error executing " ++ "export_diagram_formats" ++ ": "
        ++ "Failed to export diagram: Unsupported format: bmp"), none, none⟩]⟩ ∧
    "no_such_tool" ∉ toolNames ∧
    callTool "/work" "no_such_tool" emptyToolArgs =
      errorResponse "no_such_tool" ("Unknown tool: " ++ "no_such_tool") := by
  have h₁ : dispatchTool "/work" "export_diagram_formats"
      { diagram_code := some "graph TD", format := some "bmp" } =
      .error "Failed to export diagram: Unsupported format: bmp" := rfl
  refine ⟨h₁, ?_, by decide, ?_⟩
  · exact ((dispatcher_degrades_errors_to_text "/work" "export_diagram_formats" _).1 _ h₁).1
  · exact ((dispatcher_degrades_errors_to_text "/work" "no_such_tool" emptyToolArgs).2.1
      (by decide)).1

/-- C2: for every supported format, exporting with no output path returns a
successful result carrying `base64Data` and no `outputPath`; with an output
path it carries the resolved absolute `outputPath` and no `base64Data`; in
either mode exactly one of the two fields is present. -/
theorem export_output_mode (cwd dc fmt : String) (th : Option String) (w h : Option Nat)
    (path : Option String) (hf : fmt ∈ supportedFormats) :
    ∃ res wr, exportDiagram cwd ⟨some dc, fmt, th, w, h, path⟩ = .ok (res, wr) ∧
      res.success = true ∧
      (path = none → res.outputPath = none ∧ res.base64Data.isSome = true) ∧
      (∀ p, path = some p → res.outputPath = some (resolvePath cwd p) ∧ res.base64Data = none) ∧
      ((res.outputPath.isSome = true ∧ res.base64Data = none) ∨
        (res.outputPath = none ∧ res.base64Data.isSome = true)) := by
  simp only [supportedFormats, List.mem_cons, List.not_mem_nil, or_false] at hf
  rcases hf with rfl | rfl | rfl | rfl <;> cases path with
    | none =>
        exact ⟨_, _, rfl, rfl, fun _ => ⟨rfl, rfl⟩, fun p hp => Option.noConfusion hp,
          Or.inr ⟨rfl, rfl⟩⟩
    | some p =>
        exact ⟨_, _, rfl, rfl, fun hc => Option.noConfusion hc,
          fun q hq => by cases hq; exact ⟨rfl, rfl⟩, Or.inl ⟨rfl, rfl⟩⟩

/-- Witness for C2 in both output modes at format `svg`. -/
theorem export_output_mode_witness :
    "svg" ∈ supportedFormats ∧
    (∃ res wr, exportDiagram "/work" ⟨some "graph TD", "svg", none, none, none, none⟩
        = .ok (res, wr) ∧ res.success = true ∧
      ((none : Option String) = none → res.outputPath = none ∧ res.base64Data.isSome = true) ∧
      (∀ p, (none : Option String) = some p →
        res.outputPath = some (resolvePath "/work" p) ∧ res.base64Data = none) ∧
      ((res.outputPath.isSome = true ∧ res.base64Data = none) ∨
        (res.outputPath = none ∧ res.base64Data.isSome = true))) ∧
    (∃ res wr, exportDiagram "/work"
        ⟨some "graph TD", "svg", none, none, none, some "out/d.svg"⟩ = .ok (res, wr) ∧
      res.success = true ∧
      (some "out/d.svg" = (none : Option String) →
        res.outputPath = none ∧ res.base64Data.isSome = true) ∧
      (∀ p, some "out/d.svg" = some p →
        res.outputPath = some (resolvePath "/work" p) ∧ res.base64Data = none) ∧
      ((res.outputPath.isSome = true ∧ res.base64Data = none) ∨
        (res.outputPath = none ∧ res.base64Data.isSome = true))) :=
  ⟨by decide, export_output_mode "/work" "graph TD" "svg" none none none none (by decide),
    export_output_mode "/work" "graph TD" "svg" none none none (some "out/d.svg") (by decide)⟩

/-- C5: the export operation fails exactly on format values outside
`{svg, png, pdf, html}` (with the `Unsupported format` message), and on the
four supported formats it returns a result with `success = true`. -/
theorem export_fails_only_on_unsupported_format (cwd dc fmt : String) (th : Option String)
    (w h : Option Nat) (path : Option String) :
    (fmt ∉ supportedFormats →
      exportDiagram cwd ⟨some dc, fmt, th, w, h, path⟩ =
        .error ("Unsupported format: " ++ fmt)) ∧
    (fmt ∈ supportedFormats →
      ∃ res wr, exportDiagram cwd ⟨some dc, fmt, th, w, h, path⟩ = .ok (res, wr) ∧
        res.success = true) := by
  constructor
  · intro hnot
    simp only [supportedFormats, List.mem_cons, List.not_mem_nil, or_false, not_or] at hnot
    unfold exportDiagram
    split <;> simp_all
  · intro hf
    simp only [supportedFormats, List.mem_cons, List.not_mem_nil, or_false] at hf
    rcases hf with rfl | rfl | rfl | rfl <;> cases path with
      | none => exact ⟨_, _, rfl, rfl⟩
      | some p => exact ⟨_, _, rfl, rfl⟩

/-- Witness for C5: format `docx` is rejected with the `Unsupported format`
error while format `html` succeeds. -/
theorem export_fails_only_on_unsupported_format_witness :
    "docx" ∉ supportedFormats ∧
    exportDiagram "/work" ⟨some "graph TD", "docx", none, none, none, none⟩ =
      .error ("Unsupported format: " ++ "docx") ∧
    "html" ∈ supportedFormats ∧
    (∃ res wr, exportDiagram "/work" ⟨some "graph TD", "html", none, none, none, none⟩
        = .ok (res, wr) ∧ res.success = true) := by
  refine ⟨by decide, ?_, by decide, ?_⟩
  · exact (export_fails_only_on_unsupported_format "/work" "graph TD" "docx"
      none none none none).1 (by decide)
  · exact (export_fails_only_on_unsupported_format "/work" "graph TD" "html"
      none none none none).2 (by decide)

/-- C7 counterexample: `"constructor"` lies outside
`{default, dark, forest, neutral}`, yet the lookup does not return the
default palette: `themes["constructor"]` is the inherited (truthy) `Object`
constructor, so the `||` fallback never fires and all four color roles read
off the result are `undefined` — the dark stroke of the default palette is
nowhere to be found, and the template interpolates `undefined` instead. -/
theorem constructor_theme_not_default_palette :
    "constructor" ∉ themeNames ∧
    getThemeColors "constructor" ≠ getThemeColors "default" ∧
    getThemeColors "constructor" = ⟨none, none, none, none⟩ ∧
    jsInterp (getThemeColors "constructor").strokeColor = "undefined" :=
  ⟨by decide, by decide, by decide, by decide⟩

/-- C7 (amended): the theme lookup is total and never raises.  A theme name
outside `{default, dark, forest, neutral}` falls back to the default
palette unless it is a property name inherited from `Object.prototype`
(`constructor`, `toString`, ...), in which case the lookup returns the
truthy inherited value and every color role read from it is `undefined`;
in either case an svg export under the unrecognized theme still succeeds. -/
theorem unknown_theme_falls_back_to_default (t : String) (h : t ∉ themeNames) :
    (t ∉ objectPrototypeKeys →
      getThemeColors t = ⟨some "#fff", some "#333", some "#333", some "#333"⟩ ∧
      getThemeColors t = getThemeColors "default") ∧
    (t ∈ objectPrototypeKeys → getThemeColors t = ⟨none, none, none, none⟩) ∧
    (∀ cwd dc path, ∃ res wr,
      exportDiagram cwd ⟨some dc, "svg", some t, none, none, path⟩ = .ok (res, wr) ∧
      res.success = true) := by
  simp only [themeNames, List.mem_cons, List.not_mem_nil, or_false, not_or] at h
  obtain ⟨h1, h2, h3, h4⟩ := h
  refine ⟨?_, ?_, ?_⟩
  · intro hp
    have hc : getThemeColors t = ⟨some "#fff", some "#333", some "#333", some "#333"⟩ := by
      unfold getThemeColors
      rw [if_neg h1, if_neg h2, if_neg h3, if_neg h4, if_neg hp]
    exact ⟨hc, by rw [hc]; rfl⟩
  · intro hp
    unfold getThemeColors
    rw [if_neg h1, if_neg h2, if_neg h3, if_neg h4, if_pos hp]
  · intro cwd dc path
    cases path with
    | none => exact ⟨_, _, rfl, rfl⟩
    | some p => exact ⟨_, _, rfl, rfl⟩

/-- Witness for the amended C7 at the plain unknown name `nonexistent` and
at the inherited name `constructor`. -/
theorem unknown_theme_falls_back_to_default_witness :
    "nonexistent" ∉ themeNames ∧
    getThemeColors "nonexistent" = ⟨some "#fff", some "#333", some "#333", some "#333"⟩ ∧
    "constructor" ∉ themeNames ∧
    getThemeColors "constructor" = ⟨none, none, none, none⟩ ∧
    (∃ res wr, exportDiagram "/work"
        ⟨some "graph TD", "svg", some "nonexistent", none, none, none⟩ = .ok (res, wr) ∧
      res.success = true) ∧
    (∃ res wr, exportDiagram "/work"
        ⟨some "graph TD", "svg", some "constructor", none, none, none⟩ = .ok (res, wr) ∧
      res.success = true) :=
  ⟨by decide,
    ((unknown_theme_falls_back_to_default "nonexistent" (by decide)).1 (by decide)).1,
    by decide,
    (unknown_theme_falls_back_to_default "constructor" (by decide)).2.1 (by decide),
    (unknown_theme_falls_back_to_default "nonexistent" (by decide)).2.2 "/work" "graph TD" none,
    (unknown_theme_falls_back_to_default "constructor" (by decide)).2.2 "/work" "graph TD" none⟩

/-- C8: for every diagram source (the empty string included), png and pdf
export never fail: inline they return their constant pre-baked base64
payloads with the fixed `~150KB` / `~200KB` size estimates, and with an
output path they write the short text placeholder naming the (truncated)
diagram source. -/
theorem png_pdf_placeholder_never_fails (cwd dc : String) (th : Option String)
    (w h : Option Nat) (p : String) :
    exportDiagram cwd ⟨some dc, "png", th, w, h, none⟩ =
      .ok (⟨true, none, some pngPlaceholderBase64, "~150KB",
        "PNG would be rendered at " ++ toString (w.getD 1920) ++ "x" ++ toString (h.getD 1080)
          ++ " with " ++ th.getD "default" ++ " theme"⟩, none) ∧
    exportDiagram cwd ⟨some dc, "png", th, w, h, some p⟩ =
      .ok (⟨true, some (resolvePath cwd p), none, "~150KB",
        "PNG would be rendered at " ++ toString (w.getD 1920) ++ "x" ++ toString (h.getD 1080)
          ++ " with " ++ th.getD "default" ++ " theme"⟩,
        some ⟨p, "PNG export placeholder for diagram: " ++ jsSliceStr 50 dc ++ "..."⟩) ∧
    exportDiagram cwd ⟨some dc, "pdf", th, w, h, none⟩ =
      .ok (⟨true, none, some pdfPlaceholderBase64, "~200KB",
        "PDF would be generated with " ++ th.getD "default" ++ " theme"⟩, none) ∧
    exportDiagram cwd ⟨some dc, "pdf", th, w, h, some p⟩ =
      .ok (⟨true, some (resolvePath cwd p), none, "~200KB",
        "PDF would be generated with " ++ th.getD "default" ++ " theme"⟩,
        some ⟨p, "PDF export placeholder for diagram: " ++ jsSliceStr 50 dc ++ "..."⟩) :=
  ⟨rfl, rfl, rfl, rfl⟩

/-- The SVG text produced by the example scenario: format svg, theme dark,
diagram code `flowchart TD\nA-->B`, no output path. -/
def darkScenarioSVG : String :=
  svgTemplateBeforeCode (getThemeColors "dark") ++ jsSliceStr 50 "flowchart TD\nA-->B"
    ++ svgTemplateAfterCode (getThemeColors "dark")

/-- C6: for every diagram source and theme the generated SVG is the fixed
400×300 template — two fixed demo nodes and one connecting edge styled by
interpolating the resolved theme's color roles (the string `undefined`
where the lookup yields no role) — with the source appearing only as its
first 50 characters spliced between two source-independent pieces; and the
concrete dark-theme scenario returns success with non-empty base64 data
that decodes back to an SVG text containing `<svg` and the dark stroke
color `#d4d4d4`. -/
theorem svg_export_is_fixed_template_demo :
    (∀ dc theme : String,
      generateSVGTemplate (some dc) theme =
        .ok (svgTemplateBeforeCode (getThemeColors theme) ++ jsSliceStr 50 dc
          ++ svgTemplateAfterCode (getThemeColors theme)) ∧
      strContains (svgTemplateBeforeCode (getThemeColors theme))
        "<svg width=\"400\" height=\"300\"" = true ∧
      strContains (svgTemplateBeforeCode (getThemeColors theme))
        (jsInterp (getThemeColors theme).strokeColor) = true ∧
      strContains (svgTemplateAfterCode (getThemeColors theme))
        "<rect class=\"node\" x=\"50\" y=\"50\"" = true ∧
      strContains (svgTemplateAfterCode (getThemeColors theme))
        "<rect class=\"node\" x=\"200\" y=\"50\"" = true ∧
      strContains (svgTemplateAfterCode (getThemeColors theme))
        "<line class=\"edge\" x1=\"150\" y1=\"70\" x2=\"200\" y2=\"70\"" = true) ∧
    (∃ res, exportDiagram "/work"
        ⟨some "flowchart TD\nA-->B", "svg", some "dark", none, none, none⟩ = .ok (res, none) ∧
      res.success = true ∧
      res.base64Data = some (base64Encode (utf8Bytes darkScenarioSVG)) ∧
      base64Encode (utf8Bytes darkScenarioSVG) ≠ "" ∧
      base64Decode (base64Encode (utf8Bytes darkScenarioSVG))
        = some (utf8Bytes darkScenarioSVG) ∧
      strContains darkScenarioSVG "<svg" = true ∧
      strContains darkScenarioSVG "#d4d4d4" = true ∧
      jsSliceStr 50 "flowchart TD\nA-->B" = "flowchart TD\nA-->B") := by
  constructor
  · intro dc theme
    exact ⟨rfl, svgTemplateBeforeCode_has_canvas _, svgTemplateBeforeCode_has_strokeColor _,
      (svgTemplateAfterCode_has_demo _).1, (svgTemplateAfterCode_has_demo _).2.1,
      (svgTemplateAfterCode_has_demo _).2.2⟩
  · refine ⟨_, rfl, rfl, rfl, base64Encode_ne_empty _ ?_, base64Decode_base64Encode _,
      ?_, ?_, by decide⟩
    · decide
    · unfold darkScenarioSVG
      apply strContains_mono_append_r
      apply strContains_mono_append_r
      unfold svgTemplateBeforeCode
      repeat apply strContains_mono_append_r
      decide
    · unfold darkScenarioSVG
      apply strContains_mono_append_r
      apply strContains_mono_append_r
      exact svgTemplateBeforeCode_has_strokeColor (getThemeColors "dark")

/-- C9: the export payload is deterministic — the file content written for
a given options value does not depend on the output path, so two calls with
identical options and fresh output paths write byte-identical contents, and
with no output path the returned base64 data of two calls is identical. -/
theorem export_payload_deterministic (cwd fmt dc : String) (th : Option String)
    (w h : Option Nat) (p₁ p₂ : String) :
    (∀ r₁ w₁ r₂ w₂,
      exportDiagram cwd ⟨some dc, fmt, th, w, h, some p₁⟩ = .ok (r₁, some w₁) →
      exportDiagram cwd ⟨some dc, fmt, th, w, h, some p₂⟩ = .ok (r₂, some w₂) →
      w₁.content = w₂.content) ∧
    (∀ r₁ w₁ r₂ w₂,
      exportDiagram cwd ⟨some dc, fmt, th, w, h, none⟩ = .ok (r₁, w₁) →
      exportDiagram cwd ⟨some dc, fmt, th, w, h, none⟩ = .ok (r₂, w₂) →
      r₁.base64Data = r₂.base64Data) := by
  constructor
  · intro r₁ w₁ r₂ w₂ e₁ e₂
    by_cases h1 : fmt = "svg"
    · subst h1
      simp [exportDiagram, renderSVG, generateSVGTemplate, jsSlice] at e₁ e₂
      obtain ⟨-, rfl⟩ := e₁
      obtain ⟨-, rfl⟩ := e₂
      rfl
    · by_cases h2 : fmt = "png"
      · subst h2
        simp [exportDiagram, renderPNG, jsSlice] at e₁ e₂
        obtain ⟨-, rfl⟩ := e₁
        obtain ⟨-, rfl⟩ := e₂
        rfl
      · by_cases h3 : fmt = "pdf"
        · subst h3
          simp [exportDiagram, renderPDF, jsSlice] at e₁ e₂
          obtain ⟨-, rfl⟩ := e₁
          obtain ⟨-, rfl⟩ := e₂
          rfl
        · by_cases h4 : fmt = "html"
          · subst h4
            simp [exportDiagram, renderHTML] at e₁ e₂
            obtain ⟨-, rfl⟩ := e₁
            obtain ⟨-, rfl⟩ := e₂
            rfl
          · exfalso
            have herr : exportDiagram cwd ⟨some dc, fmt, th, w, h, some p₁⟩ =
                .error ("Unsupported format: " ++ fmt) := by
              unfold exportDiagram
              split <;> simp_all
            rw [herr] at e₁
            exact Except.noConfusion e₁
  · intro r₁ w₁ r₂ w₂ e₁ e₂
    have h := e₁.symm.trans e₂
    injection h with hpair
    cases hpair
    rfl

/-- Witness for C9: two svg exports differing only in their output paths
write identical file contents. -/
theorem export_payload_deterministic_witness :
    ∃ r₁ w₁ r₂ w₂,
      exportDiagram "/work" ⟨some "graph TD", "svg", none, none, none, some "out/a.svg"⟩
        = .ok (r₁, some w₁) ∧
      exportDiagram "/work" ⟨some "graph TD", "svg", none, none, none, some "out/b.svg"⟩
        = .ok (r₂, some w₂) ∧
      w₁.content = w₂.content := by
  have h := (export_payload_deterministic "/work" "svg" "graph TD" none none none
    "out/a.svg" "out/b.svg").1
  exact ⟨_, _, _, _, rfl, rfl, h _ _ _ _ rfl rfl⟩
